import Mathlib

/-!
Verification of the token-service pipeline (`src/main.py`).

The source is a small Python module built from five classes:
`TokenOptimizer` (whitespace stripping), `TokenEncoder` (tiktoken wrapper
with a `cl100k_base` fallback), `TokenCounter` (`len`), `TokenTruncator`
(prefix slicing to a configured limit) and `TokenService` (the linear
pipeline `optimize -> encode -> count -> truncate -> count`).

Prompts are modelled as `List Char` (Python `str`), token sequences as
`List Nat` (opaque token ids), and the stored token limit as `Int`
(Python ints are unbounded and the constructor performs no sign check).
The tiktoken registry is an external collaborator and is modelled as an
abstract map `String → Option Encoding` together with an `Encoding`
record that carries the encode function.
-/

/-- Whitespace test matching the characters stripped by Python `str.strip()`
(restricted to the ASCII whitespace characters; the proofs below do not
depend on the exact character set). -/
def isPySpace (c : Char) : Bool :=
  c == ' ' || c == '\t' || c == '\n' || c == '\r' || c == '\x0b' || c == '\x0c'

/-- Python `s.strip()` on a list of characters: drop leading whitespace,
then drop trailing whitespace. -/
def pyStrip (l : List Char) : List Char :=
  ((l.dropWhile isPySpace).reverse.dropWhile isPySpace).reverse

/-- `TokenOptimizer.optimize_prompt`: `prompt.strip()` (src/main.py line 24). -/
def optimize_prompt (prompt : List Char) : List Char :=
  pyStrip prompt

/-- An encoding delivered by the (external) tiktoken library: for this
pipeline only its `encode` function matters. -/
structure Encoding where
  encodeFn : List Char → List Nat

/-- `TokenCounter.get_token_count`: `len(tokens)` (src/main.py line 74). -/
def get_token_count (tokens : List Nat) : Nat :=
  tokens.length

/-- Python slice `l[:k]` with an arbitrary (possibly negative) stop index:
a nonnegative stop takes the first `k` elements (clamped to the length),
a negative stop takes the first `len(l) + k` elements (clamped to `0`). -/
def pySliceTo (l : List Nat) (k : Int) : List Nat :=
  if 0 ≤ k then l.take k.toNat else l.take ((l.length : Int) + k).toNat

/-- `TokenTruncator` (src/main.py lines 79-105): holds the configured
`token_limit`; the constructor stores it without any validation. -/
structure TokenTruncator where
  token_limit : Int
deriving DecidableEq

/-- `TokenTruncator.truncate` (src/main.py lines 91-105):
`tokens[:self.token_limit]` when `len(tokens) > self.token_limit`,
otherwise `tokens` unchanged. -/
def TokenTruncator.truncate (t : TokenTruncator) (tokens : List Nat) : List Nat :=
  if (tokens.length : Int) > t.token_limit then pySliceTo tokens t.token_limit
  else tokens

/-- `TokenEncoder` (src/main.py lines 29-58): holds the resolved encoding. -/
structure TokenEncoder where
  encoding : Encoding

/-- `TokenEncoder.__init__` (src/main.py lines 32-44): look the model up in
the tiktoken registry (`tiktoken.encoding_for_model`); on failure fall back
to `tiktoken.get_encoding('cl100k_base')`, never re-raising. The registry
and the `cl100k_base` encoding are passed in as the external collaborator. -/
def TokenEncoder.init (registry : String → Option Encoding) (cl100k : Encoding)
    (model : String) : TokenEncoder :=
  match registry model with
  | some e => ⟨e⟩
  | none => ⟨cl100k⟩

/-- `TokenEncoder.encode` (src/main.py lines 46-58): `self.encoding.encode(prompt)`. -/
def TokenEncoder.encode (e : TokenEncoder) (prompt : List Char) : List Nat :=
  e.encoding.encodeFn prompt

/-- The dictionary returned by `TokenService.process_prompt`
(src/main.py lines 148-154). -/
structure ProcessingResult where
  optimized_prompt : List Char
  encoded_tokens : List Nat
  token_count_before : Nat
  truncated_tokens : List Nat
  token_count_after : Nat

/-- `TokenService` (src/main.py lines 108-127): owns the encoder and the
truncator (the optimizer and counter are stateless). -/
structure TokenService where
  encoder : TokenEncoder
  truncator : TokenTruncator

/-- `TokenService.__init__` (src/main.py lines 116-127): builds the
sub-components; the token limit is handed to the truncator unvalidated. -/
def TokenService.init (registry : String → Option Encoding) (cl100k : Encoding)
    (model : String) (token_limit : Int) : TokenService :=
  { encoder := TokenEncoder.init registry cl100k model
    truncator := { token_limit := token_limit } }

/-- `TokenService.process_prompt` (src/main.py lines 129-154): the linear
pipeline optimize → encode → count → truncate → count. -/
def TokenService.process_prompt (s : TokenService) (prompt : List Char) :
    ProcessingResult :=
  let optimized := optimize_prompt prompt
  let encoded := s.encoder.encode optimized
  let countBefore := get_token_count encoded
  let truncated := s.truncator.truncate encoded
  let countAfter := get_token_count truncated
  { optimized_prompt := optimized
    encoded_tokens := encoded
    token_count_before := countBefore
    truncated_tokens := truncated
    token_count_after := countAfter }

/-- Errors named by the specification for pipeline construction. The source
constructor never raises one; the type records the possibility. -/
inductive ConfigError where
  | invalidConfiguration : ConfigError
deriving DecidableEq

/-- Construction of `TokenTruncator` viewed as a fallible Python call:
`__init__` (src/main.py lines 82-89) only stores the limit, so the result
is always `ok`, for any integer limit. -/
def TokenTruncator.tryInit (token_limit : Int) : Except ConfigError TokenTruncator :=
  Except.ok { token_limit := token_limit }

/-- Construction of `TokenService` viewed as a fallible Python call:
`__init__` (src/main.py lines 116-127) performs no validation, so the
result is always `ok`, for any integer limit. -/
def TokenService.tryInit (registry : String → Option Encoding) (cl100k : Encoding)
    (model : String) (token_limit : Int) : Except ConfigError TokenService :=
  Except.ok (TokenService.init registry cl100k model token_limit)

/-! Concrete instances used by the closed witness theorems. -/

/-- A concrete stand-in codec: one token per character. -/
def idEncoding : Encoding :=
  ⟨fun cs => cs.map Char.toNat⟩

/-- A registry that recognizes no model at all. -/
def emptyRegistry : String → Option Encoding :=
  fun _ => none

/-- A registry that recognizes exactly the model name used by the source
default (`gpt-3.5-turbo`). -/
def gptRegistry : String → Option Encoding :=
  fun m => if m = "gpt-3.5-turbo" then some idEncoding else none

/-! Helper lemmas about `dropWhile`, `pyStrip` and `truncate`. -/

theorem dropWhile_dropWhile_self {α : Type} (p : α → Bool) (l : List α) :
    (l.dropWhile p).dropWhile p = l.dropWhile p := by
  induction l with
  | nil => rfl
  | cons a t ih =>
    by_cases h : p a = true
    · simp [List.dropWhile_cons, h, ih]
    · simp [List.dropWhile_cons, h]

theorem dropWhile_head_false {α : Type} (p : α → Bool) (l : List α) (a : α) (t : List α)
    (h : l.dropWhile p = a :: t) : p a = false := by
  induction l with
  | nil => simp [List.dropWhile] at h
  | cons b u ih =>
    rw [List.dropWhile_cons] at h
    by_cases hb : p b = true
    · rw [if_pos hb] at h
      exact ih h
    · rw [if_neg hb] at h
      injection h with h1 _
      subst h1
      simpa using hb

theorem pyStrip_def (l : List Char) :
    pyStrip l = ((l.dropWhile isPySpace).reverse.dropWhile isPySpace).reverse := rfl

theorem dropWhile_rev_split (m : List Char) :
    m = (m.reverse.dropWhile isPySpace).reverse ++ (m.reverse.takeWhile isPySpace).reverse := by
  calc m = m.reverse.reverse := (List.reverse_reverse m).symm
  _ = (m.reverse.takeWhile isPySpace ++ m.reverse.dropWhile isPySpace).reverse := by
        rw [List.takeWhile_append_dropWhile]
  _ = (m.reverse.dropWhile isPySpace).reverse ++ (m.reverse.takeWhile isPySpace).reverse := by
        rw [List.reverse_append]

theorem pyStrip_head_false (l : List Char) (a : Char) (t : List Char)
    (h : pyStrip l = a :: t) : isPySpace a = false := by
  have hm := dropWhile_rev_split (l.dropWhile isPySpace)
  rw [show ((l.dropWhile isPySpace).reverse.dropWhile isPySpace).reverse = pyStrip l from rfl,
    h, List.cons_append] at hm
  exact dropWhile_head_false isPySpace l a _ hm

theorem pyStrip_no_leading (l : List Char) :
    (pyStrip l).dropWhile isPySpace = pyStrip l := by
  cases h : pyStrip l with
  | nil => simp
  | cons a t =>
    rw [List.dropWhile_cons, pyStrip_head_false l a t h]
    simp

theorem pyStrip_no_trailing (l : List Char) :
    (pyStrip l).reverse.dropWhile isPySpace = (pyStrip l).reverse := by
  rw [pyStrip_def, List.reverse_reverse, dropWhile_dropWhile_self]

theorem pyStrip_idem_aux (l : List Char) : pyStrip (pyStrip l) = pyStrip l := by
  rw [pyStrip_def (pyStrip l), pyStrip_no_leading, pyStrip_no_trailing,
    List.reverse_reverse]

theorem pyStrip_split (t : List Char) :
    ∃ a b, t = a ++ pyStrip t ++ b ∧ (∀ c ∈ a, isPySpace c = true) ∧
      (∀ c ∈ b, isPySpace c = true) := by
  refine ⟨t.takeWhile isPySpace,
    ((t.dropWhile isPySpace).reverse.takeWhile isPySpace).reverse, ?_, ?_, ?_⟩
  · conv_lhs => rw [← List.takeWhile_append_dropWhile isPySpace t]
    rw [List.append_assoc]
    congr 1
    exact dropWhile_rev_split (t.dropWhile isPySpace)
  · intro c hc
    exact List.mem_takeWhile_imp hc
  · intro c hc
    rw [List.mem_reverse] at hc
    exact List.mem_takeWhile_imp hc

theorem truncate_eq_take (t : TokenTruncator) (hL : 0 ≤ t.token_limit)
    (s : List Nat) : t.truncate s = s.take t.token_limit.toNat := by
  unfold TokenTruncator.truncate pySliceTo
  by_cases h : (s.length : Int) > t.token_limit
  · rw [if_pos h, if_pos hL]
  · rw [if_neg h]
    have hlen : s.length ≤ t.token_limit.toNat :=
      (Int.le_toNat hL).2 (not_lt.1 h)
    exact (List.take_of_length_le hlen).symm

theorem truncate_nil (t : TokenTruncator) : t.truncate [] = [] := by
  unfold TokenTruncator.truncate pySliceTo
  split_ifs <;> simp

/-! Claim theorems. -/

/-- C1: for every prompt, `process_prompt` returns a result whose fields are
the ordered composition optimize → encode → count → truncate → count, with
no step skipped or reordered. -/
theorem process_prompt_linear (svc : TokenService) (p : List Char) :
    svc.process_prompt p =
      { optimized_prompt := optimize_prompt p
        encoded_tokens := svc.encoder.encode (optimize_prompt p)
        token_count_before :=
          get_token_count (svc.encoder.encode (optimize_prompt p))
        truncated_tokens :=
          svc.truncator.truncate (svc.encoder.encode (optimize_prompt p))
        token_count_after :=
          get_token_count
            (svc.truncator.truncate
              (svc.encoder.encode (optimize_prompt p))) } := rfl

/-- C2: for every prompt and every pipeline whose configured limit is
nonnegative, the result satisfies
`countAfter = len(truncatedTokens) ≤ min(countBefore, TokenLimit)` and
`truncatedTokens` is a prefix of `tokens`. -/
theorem process_result_budget (svc : TokenService) (p : List Char)
    (hL : 0 ≤ svc.truncator.token_limit) :
    (svc.process_prompt p).token_count_after
        = (svc.process_prompt p).truncated_tokens.length ∧
    ((svc.process_prompt p).token_count_after : Int)
        ≤ min ((svc.process_prompt p).token_count_before : Int)
            svc.truncator.token_limit ∧
    ∃ rest, (svc.process_prompt p).truncated_tokens ++ rest
        = (svc.process_prompt p).encoded_tokens := by
  have ht : (svc.process_prompt p).truncated_tokens
      = (svc.encoder.encode (optimize_prompt p)).take
          svc.truncator.token_limit.toNat :=
    truncate_eq_take svc.truncator hL (svc.encoder.encode (optimize_prompt p))
  refine ⟨rfl, ?_, ?_⟩
  · show ((svc.process_prompt p).truncated_tokens.length : Int) ≤ _
    have h2 : (svc.process_prompt p).token_count_before
        = (svc.encoder.encode (optimize_prompt p)).length := rfl
    rw [ht, List.length_take, h2]
    have h1 := Int.toNat_of_nonneg hL
    omega
  · rw [ht]
    exact ⟨(svc.encoder.encode (optimize_prompt p)).drop
      svc.truncator.token_limit.toNat, List.take_append_drop _ _⟩

/-- Witness for C2 at a concrete pipeline (limit 2) and prompt. -/
theorem process_result_budget_witness :
    ((TokenService.init emptyRegistry idEncoding "gpt-4" 2).process_prompt
        " abc ".toList).token_count_after
      = ((TokenService.init emptyRegistry idEncoding "gpt-4" 2).process_prompt
          " abc ".toList).truncated_tokens.length ∧
    (((TokenService.init emptyRegistry idEncoding "gpt-4" 2).process_prompt
        " abc ".toList).token_count_after : Int)
      ≤ min (((TokenService.init emptyRegistry idEncoding "gpt-4" 2).process_prompt
            " abc ".toList).token_count_before : Int)
          (TokenService.init emptyRegistry idEncoding "gpt-4" 2).truncator.token_limit ∧
    ∃ rest, ((TokenService.init emptyRegistry idEncoding "gpt-4" 2).process_prompt
        " abc ".toList).truncated_tokens ++ rest
      = ((TokenService.init emptyRegistry idEncoding "gpt-4" 2).process_prompt
          " abc ".toList).encoded_tokens :=
  process_result_budget (TokenService.init emptyRegistry idEncoding "gpt-4" 2)
    " abc ".toList (by decide)

/-- C3: for every token sequence and nonnegative limit, `truncate` returns
exactly `min(len(s), L)` tokens and the result is a prefix of the input. -/
theorem truncate_min_pref (s : List Nat) (L : Int) (hL : 0 ≤ L) :
    (TokenTruncator.truncate ⟨L⟩ s).length = min s.length L.toNat ∧
    ∃ rest, TokenTruncator.truncate ⟨L⟩ s ++ rest = s := by
  have ht : TokenTruncator.truncate ⟨L⟩ s = s.take L.toNat :=
    truncate_eq_take ⟨L⟩ hL s
  rw [ht]
  constructor
  · rw [List.length_take]
    exact Nat.min_comm _ _
  · exact ⟨s.drop L.toNat, List.take_append_drop _ _⟩

/-- Witness for C3 at a concrete sequence and limit. -/
theorem truncate_min_pref_witness :
    (TokenTruncator.truncate ⟨2⟩ [10, 20, 30]).length
        = min [10, 20, 30].length (2 : Int).toNat ∧
    ∃ rest, TokenTruncator.truncate ⟨2⟩ [10, 20, 30] ++ rest = [10, 20, 30] :=
  truncate_min_pref [10, 20, 30] 2 (by decide)

/-- C4 counterexample: constructing a truncator with the negative limit `-1`
succeeds (the constructor performs no validation), so construction does not
fail with `InvalidConfiguration` as claimed. -/
theorem tryInit_neg_one_ok :
    TokenTruncator.tryInit (-1) = Except.ok { token_limit := -1 } ∧
    TokenTruncator.tryInit (-1) ≠ Except.error ConfigError.invalidConfiguration :=
  ⟨rfl, fun h => Except.noConfusion h⟩

/-- C4 amended: construction of the pipeline never fails; any integer
token limit, negative ones included, is accepted and stored unchanged,
and no `InvalidConfiguration` error is raised at construction time. -/
theorem tryInit_accepts_any_limit (registry : String → Option Encoding)
    (cl100k : Encoding) (model : String) (L : Int) :
    TokenService.tryInit registry cl100k model L
        = Except.ok (TokenService.init registry cl100k model L) ∧
    TokenTruncator.tryInit L = Except.ok { token_limit := L } ∧
    (TokenService.init registry cl100k model L).truncator.token_limit = L :=
  ⟨rfl, rfl, rfl⟩

/-- C5: codec initialization is total, and when the registry does not
recognize the model name the encoder substitutes the default
`cl100k_base` encoding instead of raising. -/
theorem encoder_init_fallback (registry : String → Option Encoding)
    (cl100k : Encoding) (model : String) (h : registry model = none) :
    (TokenEncoder.init registry cl100k model).encoding = cl100k := by
  unfold TokenEncoder.init
  rw [h]

/-- Witness for C5 at a registry that recognizes no model. -/
theorem encoder_init_fallback_witness :
    emptyRegistry "no-such-model" = none ∧
    (TokenEncoder.init emptyRegistry idEncoding "no-such-model").encoding
      = idEncoding :=
  ⟨rfl, encoder_init_fallback emptyRegistry idEncoding "no-such-model" rfl⟩

/-- C6: whenever the sequence already fits the limit, `truncate` returns it
unchanged. -/
theorem truncate_noop_of_le (s : List Nat) (L : Int)
    (h : (s.length : Int) ≤ L) : TokenTruncator.truncate ⟨L⟩ s = s := by
  unfold TokenTruncator.truncate
  rw [if_neg (not_lt.2 h)]

/-- Witness for C6 at a concrete sequence shorter than the limit. -/
theorem truncate_noop_of_le_witness :
    TokenTruncator.truncate ⟨5⟩ [1, 2] = [1, 2] :=
  truncate_noop_of_le [1, 2] 5 (by decide)

/-- C7: the normalizer is idempotent on every input, and it only strips
leading and trailing whitespace: the input splits as
whitespace ++ output ++ whitespace, and the output itself carries no
leading or trailing whitespace. -/
theorem optimize_prompt_idem_strip_only (t : List Char) :
    optimize_prompt (optimize_prompt t) = optimize_prompt t ∧
    (∃ a b, t = a ++ optimize_prompt t ++ b ∧ (∀ c ∈ a, isPySpace c = true) ∧
      (∀ c ∈ b, isPySpace c = true)) ∧
    (optimize_prompt t).dropWhile isPySpace = optimize_prompt t ∧
    (optimize_prompt t).reverse.dropWhile isPySpace
      = (optimize_prompt t).reverse :=
  ⟨pyStrip_idem_aux t, pyStrip_split t, pyStrip_no_leading t,
    pyStrip_no_trailing t⟩

/-- C8: a pipeline configured with limit 0 returns the empty truncated
sequence (and count 0) for every prompt, without error. -/
theorem process_limit_zero_empty (registry : String → Option Encoding)
    (cl100k : Encoding) (model : String) (p : List Char) :
    ((TokenService.init registry cl100k model 0).process_prompt p).truncated_tokens
        = [] ∧
    ((TokenService.init registry cl100k model 0).process_prompt p).token_count_after
        = 0 := by
  have ht : ((TokenService.init registry cl100k model 0).process_prompt p).truncated_tokens
      = [] := by
    show (TokenService.init registry cl100k model 0).truncator.truncate
        ((TokenService.init registry cl100k model 0).encoder.encode
          (optimize_prompt p)) = []
    rw [truncate_eq_take (TokenService.init registry cl100k model 0).truncator
      (le_refl 0)]
    rfl
  refine ⟨ht, ?_⟩
  show (((TokenService.init registry cl100k model 0).process_prompt p).truncated_tokens).length = 0
  rw [ht]
  rfl

/-- C9: processing the empty prompt succeeds with both token counts equal
to 0, for every nonnegative configured limit, under the codec contract that
encoding the empty string yields the empty sequence. -/
theorem process_empty_zero (svc : TokenService)
    (henc : svc.encoder.encode [] = [])
    (_hL : 0 ≤ svc.truncator.token_limit) :
    (svc.process_prompt []).token_count_before = 0 ∧
    (svc.process_prompt []).token_count_after = 0 := by
  have hopt : optimize_prompt ([] : List Char) = [] := rfl
  constructor
  · show (svc.encoder.encode (optimize_prompt [])).length = 0
    rw [hopt, henc]
    rfl
  · show ((svc.truncator.truncate
      (svc.encoder.encode (optimize_prompt []))).length) = 0
    rw [hopt, henc, truncate_nil]
    rfl

/-- Witness for C9 at a concrete pipeline with limit 4096. -/
theorem process_empty_zero_witness :
    ((TokenService.init emptyRegistry idEncoding "gpt-3.5-turbo" 4096).process_prompt
        []).token_count_before = 0 ∧
    ((TokenService.init emptyRegistry idEncoding "gpt-3.5-turbo" 4096).process_prompt
        []).token_count_after = 0 :=
  process_empty_zero (TokenService.init emptyRegistry idEncoding "gpt-3.5-turbo" 4096)
    rfl (by decide)

/-- C10: with a negative configured limit `-k` (`k > 0`), `truncate` never
raises; it returns the first `len(s) - k` elements (clamped at zero),
silently dropping the tail. -/
theorem truncate_neg_limit (k : Nat) (s : List Nat) (hk : 0 < k) :
    TokenTruncator.truncate ⟨-(k : Int)⟩ s = s.take (s.length - k) := by
  have hk' : (0 : Int) < (k : Int) := by exact_mod_cast hk
  have hlen : (0 : Int) ≤ (s.length : Int) := Int.ofNat_nonneg _
  have hcond : (s.length : Int) > -(k : Int) := by omega
  have hneg : ¬ (0 ≤ -(k : Int)) := by omega
  unfold TokenTruncator.truncate pySliceTo
  rw [if_pos hcond, if_neg hneg]
  congr 1
  show ((s.length : Int) + -(k : Int)).toNat = s.length - k
  omega

/-- Witness for C10 at a concrete sequence and negative limit. -/
theorem truncate_neg_limit_witness :
    TokenTruncator.truncate ⟨-((2 : Nat) : Int)⟩ [5, 6, 7]
      = [5, 6, 7].take ([5, 6, 7].length - 2) :=
  truncate_neg_limit 2 [5, 6, 7] (by decide)
